import Mathlib

/-
Shallow embedding of src/debian_anywhere.py (the debian-anywhere bootstrap
script) and proofs about it.  Pure string manipulation is translated to Lean
functions over String / List Char; effectful fragments (the installer guard,
the tarball extraction, the debootstrap recipe, the bootstrap phase of main)
are translated to explicit state passing with Except for raised exceptions.
-/

namespace DebianAnywhere

/-! ## Basic string helpers modelling the Python primitives used by the script -/

/-- Model of Python str.startswith: the candidate leading substring is a
character-list prefix of the string.  Used for name.startswith("/") in
download_tarball and debootstrap_path.startswith(tempdir) in main. -/
def strStartsWith (s pre : String) : Bool :=
  pre.data.isPrefixOf s.data

/-- True when the string ends with a slash; helper for pathJoin. -/
def endsWithSlash (s : String) : Bool :=
  s.data.getLast? == some '/'

/-- Model of os.path.join for two components on a POSIX host: an absolute
second component replaces the first, otherwise the components are joined
with a single "/" separator. -/
def pathJoin (a b : String) : String :=
  if strStartsWith b "/" then b
  else if a = "" then b
  else if endsWithSlash a then a ++ b
  else a ++ "/" ++ b

/-- Model of Python str.split(sep) on character lists: splitting the empty
list yields one empty group, and every separator character starts a new
group.  Used for os.environ["PATH"].split(os.pathsep). -/
def splitSep (sep : Char) : List Char → List (List Char)
  | [] => [[]]
  | c :: rest =>
      if c == sep then [] :: splitSep sep rest
      else
        match splitSep sep rest with
        | [] => [[c]]
        | g :: gs => (c :: g) :: gs

/-- Model of Python str.strip with the single character argument a double
quote: ALL leading and ALL trailing quote characters are removed.  This is
the path.strip of the which search loop (line 34 of the source). -/
def stripQuotes (s : String) : String :=
  ⟨((s.data.dropWhile (fun c => c == '"')).reverse.dropWhile
      (fun c => c == '"')).reverse⟩

/-- The head component of os.path.split(program) is nonempty exactly when
the program string contains a path separator; which branches on that. -/
def containsSep (s : String) : Bool :=
  s.data.any (fun c => c == '/')

/-- True when the string contains no PATH separator (colon). -/
def noColon (s : String) : Bool :=
  s.data.all (fun c => c != ':')

/-! ## The host filesystem abstraction used by which -/

/-- Abstraction of the host filesystem observations made by the which
helper: os.path.isfile and os.access(fpath, os.X_OK). -/
structure Host where
  isfile : String → Bool
  access : String → Bool

/-- is_exe from the source (lines 25-26): an existing regular file that the
current user may execute. -/
def is_exe (h : Host) (fpath : String) : Bool :=
  h.isfile fpath && h.access fpath

/-- The PATH environment value split on the path separator, as in
os.environ["PATH"].split(os.pathsep). -/
def splitPATH (pathVar : String) : List String :=
  (splitSep ':' pathVar.data).map (fun l => ⟨l⟩)

/-- The search loop of which (lines 33-37): walk the PATH directories in
order, strip surrounding quotes from each directory, join with the program
name and return the first executable hit. -/
def searchPATH (h : Host) (dirs : List String) (program : String) :
    Option String :=
  match dirs with
  | [] => none
  | d :: rest =>
      let exe_file := pathJoin (stripQuotes d) program
      if is_exe h exe_file then some exe_file
      else searchPATH h rest program

/-- which from the source (lines 23-39): an input containing a separator is
treated as a literal path and is returned only when is_exe holds for it,
with no PATH fallback; otherwise the PATH directories are searched in
order; absence of a hit gives None. -/
def which (h : Host) (pathVar : String) (program : String) : Option String :=
  if containsSep program then
    if is_exe h program then some program else none
  else
    searchPATH h (splitPATH pathVar) program

/-- is_installed from the source (lines 41-43). -/
def is_installed (h : Host) (pathVar : String) (program : String) : Bool :=
  (which h pathVar program).isSome

/-! ## Errors raised by the script -/

/-- The exceptions the script can raise in the modelled fragments:
assertionFailed models a Python assert (which terminates the process),
processFailed models subprocess.check_call raising CalledProcessError,
fileExists models FileExistsError from os.mkdir / shutil.copytree, and
ioError models a missing-source IOError from shutil.copy. -/
inductive InstallError where
  | assertionFailed : String → InstallError
  | processFailed : List String → InstallError
  | fileExists : String → InstallError
  | ioError : String → InstallError
deriving DecidableEq, Repr

/-- Decidable equality for Except values, so that concrete runs of the
modelled fallible operations can be checked by evaluation. -/
instance {ε α : Type} [DecidableEq ε] [DecidableEq α] :
    DecidableEq (Except ε α) := fun x y =>
  match x, y with
  | .ok a, .ok b =>
      if h : a = b then isTrue (by rw [h])
      else isFalse (by intro hc; cases hc; exact h rfl)
  | .ok _, .error _ => isFalse (by intro hc; cases hc)
  | .error _, .ok _ => isFalse (by intro hc; cases hc)
  | .error e, .error f =>
      if h : e = f then isTrue (by rw [h])
      else isFalse (by intro hc; cases hc; exact h rfl)

/-! ## The installer decorator (InstallerGuard) -/

/-- The installer decorator from the source (lines 45-60), as a function.
A build recipe is abstracted as its effect on the host filesystem (the
fetch, configure, build and install steps all only matter here through the
executables they make resolvable).  The result on success is the host after
the call, the external invocation performed (resolved command path plus
arguments; none in install-only mode), and an instrumentation flag
recording whether the wrapped recipe body was executed.  A Python assert
failure is the assertionFailed error. -/
def installer (name : String) (recipe : Host → Host) (pathVar : String)
    (args : List String) (install_only : Bool) (h : Host) :
    Except InstallError (Host × Option (String × List String) × Bool) :=
  match which h pathVar name with
  | some cmd =>
      if install_only then
        if args = [] then .ok (h, none, false)
        else .error (.assertionFailed name)
      else .ok (h, some (cmd, args), false)
  | none =>
      let h2 := recipe h
      match which h2 pathVar name with
      | none => .error (.assertionFailed name)
      | some cmd =>
          if install_only then
            if args = [] then .ok (h2, none, true)
            else .error (.assertionFailed name)
          else .ok (h2, some (cmd, args), true)

/-! ## Tarball download and extraction (ArchiveFetcher) -/

/-- The per-member safety check of download_tarball (line 92 of the
source): the assert only rejects member names that start with a slash. -/
def safeName (name : String) : Bool :=
  !(strStartsWith name "/")

/-- download_tarball from the source (lines 77-93), with the network fetch
abstracted away: the archive is its list of member names.  The loop runs
the assert over every member name before extractall is called, so a failing
assert aborts before any write.  On success the result is the list of
filesystem paths that extractall writes, one per member, each obtained by
joining the destination directory with the member name (classic extractall
semantics, as described in the tarfile documentation warning that the
source cites). -/
def download_tarball (tempdir : String) (names : List String) :
    Except InstallError (List String) :=
  if names.all safeName then
    .ok (names.map (fun n => pathJoin tempdir n))
  else
    .error (.assertionFailed "tarball member name starts with a slash")

/-- Left-to-right segment normalization with a stack, as performed by
os.path.normpath: empty and dot segments vanish, a dot-dot segment pops the
previous real segment, a dot-dot at the top of an absolute path vanishes
and at the top of a relative path is kept. -/
def normStack (absolute : Bool) (acc : List String) :
    List String → List String
  | [] => acc.reverse
  | seg :: rest =>
      if seg = "" ∨ seg = "." then normStack absolute acc rest
      else if seg = ".." then
        match acc with
        | [] =>
            if absolute then normStack absolute [] rest
            else normStack absolute [".."] rest
        | top :: acc2 =>
            if top = ".." then normStack absolute (".." :: acc) rest
            else normStack absolute acc2 rest
      else normStack absolute (seg :: acc) rest

/-- Path normalization in the style of os.path.normpath, used to decide
whether an extracted path lies outside the destination directory. -/
def joinSegs : List String → String
  | [] => ""
  | [s] => s
  | s :: rest => s ++ "/" ++ joinSegs rest

/-- Normalize a POSIX path: split on slashes, resolve dot and dot-dot
segments, rejoin (keeping a leading slash for absolute paths). -/
def normalizePath (p : String) : String :=
  let abs := strStartsWith p "/"
  let segs := normStack abs [] ((splitSep '/' p.data).map (fun l => ⟨l⟩))
  (if abs then "/" else "") ++ joinSegs segs

/-- Spec-side notion of an unsafe archive member: its path is absolute, or
its normalized form begins with a dot-dot segment and therefore escapes the
destination directory via traversal. -/
def memberUnsafe (name : String) : Bool :=
  strStartsWith name "/" ||
    (match normStack false [] ((splitSep '/' name.data).map (fun l => ⟨l⟩)) with
     | s :: _ => s == ".."
     | [] => false)

/-! ## PATH composition and the bootstrap phase of main -/

/-- The utils/bin directory under the target, as composed in main
(lines 225-230): os.path.join(target, "utils") then join with "bin". -/
def utilsBinDir (target : String) : String :=
  pathJoin (pathJoin target "utils") "bin"

/-- The scratch bin directory, os.path.join(tempdir, "bin") (line 220). -/
def tempBinDir (tempdir : String) : String :=
  pathJoin tempdir "bin"

/-- The PATH composition of main (lines 231-234): the colon join of the
utils bin directory, the scratch bin directory and the inherited PATH. -/
def composePATH (u t origPATH : String) : String :=
  u ++ ":" ++ t ++ ":" ++ origPATH

/-- The argument vector of the bootstrap invocation (lines 241-250 of the
source).  Both branches go through the installer-wrapped fakeroot command,
so the resolved fakeroot path leads the vector; when the FAKECHROOT
environment variable (modelled as an Option String, with get defaulting to
the empty string) is literally "true" the fakechroot layer is omitted,
otherwise the resolved fakechroot path is inserted after fakeroot.  The
resolved paths of fakeroot, fakechroot and debootstrap are parameters:
the tools were ensured present just before this point. -/
def bootstrapCommand (fakechrootVar : Option String)
    (fakeroot_path fakechroot_path debootstrap_path target : String) :
    List String :=
  if fakechrootVar.getD "" == "true" then
    [fakeroot_path, debootstrap_path, "--variant=fakechroot", "stable",
     pathJoin target "root"]
  else
    [fakeroot_path, fakechroot_path, debootstrap_path,
     "--variant=fakechroot", "stable", pathJoin target "root"]

/-- Observable trace of the bootstrap phase of main (lines 238-252):
the command line passed to subprocess, the value of the DEBOOTSTRAP_DIR
environment entry while debootstrap runs, whether the invocation raised,
and the value of DEBOOTSTRAP_DIR when control leaves the fragment (on a
raise, by exception propagation). -/
structure BootstrapRun where
  command : List String
  env_during : Option String
  failed : Bool
  env_at_end : Option String
deriving DecidableEq, Repr

/-- The bootstrap phase of main (lines 238-252).  DEBOOTSTRAP_DIR starts
absent; it is set to the scratch share/debootstrap directory exactly when
the resolved debootstrap path starts with the scratch directory (line 239);
the invocation then runs; only on normal return do lines 251-252 delete the
entry again — a raising invocation propagates its exception past the
delete, so the entry is still set when the fragment is abandoned.  Whether
the external invocation succeeds is the invokeOk parameter. -/
def runBootstrap (tempdir target db : String) (fakechrootVar : Option String)
    (fr fc : String) (invokeOk : Bool) : BootstrapRun :=
  let env0 : Option String := none
  let env1 := if strStartsWith db tempdir then
      some (pathJoin (pathJoin tempdir "share") "debootstrap")
    else env0
  let cmd := bootstrapCommand fakechrootVar fr fc db target
  if invokeOk then
    let env2 := if strStartsWith db tempdir then none else env1
    { command := cmd, env_during := env1, failed := false, env_at_end := env2 }
  else
    { command := cmd, env_during := env1, failed := true, env_at_end := env1 }

/-! ## The chroot.sh script (ChrootScriptWriter) -/

/-- The CHROOT_SH template of the source (lines 208-211) rendered with the
given target, fakeroot path and fakechroot path.  The Python triple-quoted
template begins with a newline immediately after the opening quotes and
ends with a newline before the closing quotes. -/
def CHROOT_SH (target fakeroot fakechroot : String) : String :=
  "\nPATH=" ++ target ++ "/utils/bin:$PATH\n" ++ fakeroot ++ " " ++
    fakechroot ++ " chroot " ++ target ++ "/root $@\n"

/-- File open modes used when writing chroot.sh. -/
inductive OpenMode where
  | append
  | truncate
deriving DecidableEq, Repr

/-- Writing a body to a file whose current content is given, under each
open mode: append keeps the existing content, truncate discards it. -/
def openAndWrite (mode : OpenMode) (existing body : String) : String :=
  match mode with
  | .append => existing ++ body
  | .truncate => body

/-- The script emission of main (lines 254-259): chroot.sh is opened with
mode "a" (append) and the rendered template is written after whatever the
file already contains. -/
def emitChrootScript (existing target fr fc : String) : String :=
  openAndWrite .append existing (CHROOT_SH target fr fc)

/-- stat.S_IREAD: owner read permission bit. -/
def S_IREAD : Nat := 0o400

/-- stat.S_IWRITE: owner write permission bit. -/
def S_IWRITE : Nat := 0o200

/-- stat.S_IEXEC: owner execute permission bit. -/
def S_IEXEC : Nat := 0o100

/-- The mode passed to os.chmod for chroot.sh (line 260 of the source). -/
def chroot_sh_mode : Nat := S_IREAD ||| S_IWRITE ||| S_IEXEC

/-! ## Filesystem model for the directory-creation behaviour -/

/-- A finite filesystem for the directory and copy operations of the
debootstrap recipe and of the directory preparation in main: the lists of
existing directory paths and existing file paths. -/
structure FS where
  dirs : List String
  files : List String
deriving DecidableEq, Repr

/-- os.mkdir: creates a single directory, raising FileExistsError when the
path already exists (no tolerance). -/
def mkdir (fs : FS) (p : String) : Except InstallError FS :=
  if fs.dirs.contains p || fs.files.contains p then .error (.fileExists p)
  else .ok { fs with dirs := p :: fs.dirs }

/-- shutil.copy: copies a file, overwriting an existing destination, and
raising an IOError when the source file does not exist. -/
def copyFile (fs : FS) (src dst : String) : Except InstallError FS :=
  if fs.files.contains src then .ok { fs with files := dst :: fs.files }
  else .error (.ioError src)

/-- shutil.copytree: a create-only directory copy that raises
FileExistsError when the destination already exists and an IOError when
the source directory is missing. -/
def copytree (fs : FS) (src dst : String) : Except InstallError FS :=
  if !fs.dirs.contains src then .error (.ioError src)
  else if fs.dirs.contains dst || fs.files.contains dst then
    .error (.fileExists dst)
  else .ok { fs with dirs := dst :: fs.dirs }

/-- os.makedirs wrapped in try/except FileExistsError, as in main
(lines 221-229): an existing directory is tolerated, a missing one is
created. -/
def makedirsTolerant (fs : FS) (p : String) : FS :=
  if fs.dirs.contains p then fs else { fs with dirs := p :: fs.dirs }

/-- The directory-preparation step of main (lines 220-229): create the
scratch bin directory and the target utils directory, each tolerating an
already existing directory. -/
def prepareDirectories (target tempdir : String) (fs : FS) : FS :=
  makedirsTolerant (makedirsTolerant fs (tempBinDir tempdir))
    (pathJoin target "utils")

/-- Effect on the filesystem of extracting the debootstrap source tarball
into the scratch directory (the download_tarball call on lines 190-192):
the archive provides a top-level directory debootstrap-1.0.67 containing
the debootstrap program file, the functions file and a scripts directory;
extraction overwrites, so it never fails on already existing paths.  The
archive content is external data, modelled from the recipe body that
consumes these paths. -/
def extractDebootstrapArchive (tempdir : String) (fs : FS) : FS :=
  let base := pathJoin tempdir "debootstrap-1.0.67"
  { dirs := base :: pathJoin base "scripts" :: fs.dirs,
    files := pathJoin base "debootstrap" :: pathJoin base "functions"
      :: fs.files }

/-- The debootstrap recipe body (lines 188-203 of the source): extract the
tarball, create share and share/debootstrap with non-tolerant os.mkdir,
copy the debootstrap executable into bin and the functions file into
share/debootstrap, and copy the scripts tree with shutil.copytree. -/
def debootstrap_recipe (tempdir : String) (fs : FS) :
    Except InstallError FS := do
  let fs1 := extractDebootstrapArchive tempdir fs
  let fs2 ← mkdir fs1 (pathJoin tempdir "share")
  let fs3 ← mkdir fs2 (pathJoin (pathJoin tempdir "share") "debootstrap")
  let base := pathJoin tempdir "debootstrap-1.0.67"
  let fs4 ← copyFile fs3 (pathJoin base "debootstrap")
    (pathJoin (pathJoin tempdir "bin") "debootstrap")
  let fs5 ← copyFile fs4 (pathJoin base "functions")
    (pathJoin (pathJoin (pathJoin tempdir "share") "debootstrap") "functions")
  copytree fs5 (pathJoin base "scripts")
    (pathJoin (pathJoin (pathJoin tempdir "share") "debootstrap") "scripts")

/-! ## Spec-side resolver definitions for the refinement claim about which -/

/-- Removal of a single leading quote character, when present. -/
def dropOneQuote (l : List Char) : List Char :=
  match l with
  | '"' :: rest => rest
  | other => other

/-- Modelled from the spec: removing one layer of surrounding quote
characters from a search directory, read literally as one leading quote
and one trailing quote. -/
def stripOneQuoteLayer (s : String) : String :=
  ⟨(dropOneQuote ((dropOneQuote s.data).reverse)).reverse⟩

/-- Modelled from the spec: the resolver exactly as the claim words it,
with one layer of surrounding quote characters stripped from each search
directory, the literal-path branch for inputs containing a separator, and
the first executable hit of an in-order search otherwise. -/
def whichSpecOneLayer (h : Host) (pathVar program : String) : Option String :=
  if containsSep program then
    if is_exe h program then some program else none
  else
    (splitPATH pathVar).findSome? (fun d =>
      let f := pathJoin (stripOneQuoteLayer d) program
      if is_exe h f then some f else none)

/-- Modelled from the spec as amended: identical to the wording of the
claim except that ALL surrounding quote characters are stripped from each
search directory, matching the str.strip call of the source. -/
def whichSpecStripAll (h : Host) (pathVar program : String) : Option String :=
  if containsSep program then
    if is_exe h program then some program else none
  else
    (splitPATH pathVar).findSome? (fun d =>
      let f := pathJoin (stripQuotes d) program
      if is_exe h f then some f else none)

/-! ## Concrete hosts used to instantiate the theorems -/

/-- A host on which exactly the path d/p is an executable file. -/
def quoteHost : Host :=
  ⟨fun q => q == "d/p", fun q => q == "d/p"⟩

/-- A host on which exactly /bin/sh is an executable file. -/
def shHost : Host :=
  ⟨fun p => p == "/bin/sh", fun p => p == "/bin/sh"⟩

/-- A host with no executable files at all. -/
def emptyHost : Host :=
  ⟨fun _ => false, fun _ => false⟩

/-- A host on which fakeroot is executable both under the target utils bin
directory and under /usr/bin. -/
def dualHost : Host :=
  ⟨fun p => p == "/tmp/x/utils/bin/fakeroot" || p == "/usr/bin/fakeroot",
   fun p => p == "/tmp/x/utils/bin/fakeroot" || p == "/usr/bin/fakeroot"⟩

/-! ## Helper lemmas -/

/-- Appending strings appends their character data. -/
theorem data_append (a b : String) : (a ++ b).data = a.data ++ b.data := rfl

/-- Splitting at a separator that follows a separator-free chunk yields the
chunk as the first group. -/
theorem splitSep_sep_append (sep : Char) (u rest : List Char)
    (hu : u.all (fun c => c != sep) = true) :
    splitSep sep (u ++ sep :: rest) = u :: splitSep sep rest := by
  induction u with
  | nil => simp [splitSep]
  | cons c cs ih =>
      simp only [List.all_cons, Bool.and_eq_true] at hu
      have hc : (c == sep) = false := by
        simpa using hu.1
      simp [splitSep, hc, List.append_eq, ih hu.2]

/-- The PATH composed by main splits back into the utils bin directory,
the scratch bin directory and the groups of the inherited PATH. -/
theorem splitPATH_composePATH (u t orig : String)
    (hu : noColon u = true) (ht : noColon t = true) :
    splitPATH (composePATH u t orig) = u :: t :: splitPATH orig := by
  unfold splitPATH composePATH
  have hd : (u ++ ":" ++ t ++ ":" ++ orig).data
      = u.data ++ ':' :: (t.data ++ ':' :: orig.data) := by
    simp [data_append, List.append_assoc]
  unfold noColon at hu ht
  rw [hd, splitSep_sep_append ':' u.data _ hu, splitSep_sep_append ':' t.data _ ht]
  simp

/-- Membership in a Bool-valued contains is preserved under cons. -/
theorem contains_cons_of (a p : String) (l : List String)
    (hp : l.contains p = true) : (a :: l).contains p = true := by
  simp only [List.contains, List.elem_eq_mem, decide_eq_true_eq] at *
  exact List.mem_cons_of_mem a hp

/-- makedirsTolerant is the identity on an already existing directory. -/
theorem makedirsTolerant_of_contains (fs : FS) (p : String)
    (hp : fs.dirs.contains p = true) : makedirsTolerant fs p = fs := by
  unfold makedirsTolerant
  rw [hp]
  simp

/-- After makedirsTolerant, the requested directory exists. -/
theorem contains_makedirsTolerant_self (fs : FS) (p : String) :
    (makedirsTolerant fs p).dirs.contains p = true := by
  unfold makedirsTolerant
  by_cases hp : fs.dirs.contains p = true
  · rw [hp]
    simpa using hp
  · have hpf : fs.dirs.contains p = false := by simpa using hp
    rw [hpf]
    simp [List.contains, List.elem_eq_mem]

/-- makedirsTolerant never removes a directory. -/
theorem contains_makedirsTolerant_mono (fs : FS) (p q : String)
    (hp : fs.dirs.contains p = true) :
    (makedirsTolerant fs q).dirs.contains p = true := by
  unfold makedirsTolerant
  by_cases hq : fs.dirs.contains q = true
  · rw [hq]
    simpa using hp
  · have hqf : fs.dirs.contains q = false := by simpa using hq
    rw [hqf]
    simp only [Bool.false_eq_true, if_false]
    exact contains_cons_of _ _ _ hp

/-- The search loop of which is the first hit of the in-order search that
the spec describes. -/
theorem searchPATH_eq_findSome (h : Host) (dirs : List String)
    (program : String) :
    searchPATH h dirs program = dirs.findSome? (fun d =>
      let f := pathJoin (stripQuotes d) program
      if is_exe h f then some f else none) := by
  induction dirs with
  | nil => rfl
  | cons d rest ih =>
      by_cases hd : is_exe h (pathJoin (stripQuotes d) program) = true
      · simp [searchPATH, List.findSome?, hd]
      · have hdf : is_exe h (pathJoin (stripQuotes d) program) = false := by
          simpa using hd
        simp [searchPATH, List.findSome?, hdf, ih]

/-! ## Claim theorems -/

/-- C1: download_tarball enumerates every member name and rejects absolute
names such as "/etc/passwd" before writing anything, but its check does
not reject traversal names: the member "../../evil" is accepted by the
check even though it is unsafe (its normalized form escapes the
destination), extraction proceeds, and the written path normalizes to
/evil, which lies outside the destination directory /tmp/t.  This
evaluates the code at the failing input of the claim. -/
theorem download_tarball_traversal_unchecked :
    download_tarball "/tmp/t" ["/etc/passwd"] =
      .error (.assertionFailed "tarball member name starts with a slash") ∧
    download_tarball "/tmp/t" ["../../evil"] = .ok ["/tmp/t/../../evil"] ∧
    memberUnsafe "../../evil" = true ∧
    normalizePath "/tmp/t/../../evil" = "/evil" ∧
    strStartsWith (normalizePath "/tmp/t/../../evil") "/tmp/t" = false :=
  ⟨by decide, by decide, by decide, by decide, by decide⟩

/-- C2 counterexample: with the FAKECHROOT environment variable literally
"true", the bootstrap command still begins with the fakeroot wrapper and
does not contain the fakechroot path at all — the code omits the
fakechroot layer, not the fakeroot layer, contradicting the claim. -/
theorem bootstrap_fakechroot_true_counterexample :
    bootstrapCommand (some "true") "/u/fakeroot" "/u/fakechroot"
        "/s/bin/debootstrap" "/tmp/x" =
      ["/u/fakeroot", "/s/bin/debootstrap", "--variant=fakechroot",
       "stable", "/tmp/x/root"] ∧
    (bootstrapCommand (some "true") "/u/fakeroot" "/u/fakechroot"
        "/s/bin/debootstrap" "/tmp/x").contains "/u/fakechroot" = false ∧
    (bootstrapCommand (some "true") "/u/fakeroot" "/u/fakechroot"
        "/s/bin/debootstrap" "/tmp/x").contains "/u/fakeroot" = true :=
  ⟨by decide, by decide, by decide⟩

/-- C2 amended: if FAKECHROOT is literally "true", the bootstrap
invocation omits the fakechroot wrapper layer (the command is
fakeroot debootstrap --variant=fakechroot stable target/root); if
FAKECHROOT is unset or has any other value, the invocation is wrapped by
both fakeroot and fakechroot.  The fakeroot layer is present in both
cases. -/
theorem bootstrap_command_wrappers (tempdir target db : String)
    (v : Option String) (fr fc : String) (ok : Bool) :
    (runBootstrap tempdir target db v fr fc ok).command =
      if v = some "true" then
        [fr, db, "--variant=fakechroot", "stable", pathJoin target "root"]
      else
        [fr, fc, db, "--variant=fakechroot", "stable",
         pathJoin target "root"] := by
  unfold runBootstrap bootstrapCommand
  cases ok <;> cases v with
  | none => simp
  | some s =>
      by_cases hs : s = "true" <;> simp [hs]

/-- C3: when the tool is already resolvable on the current PATH, the
installer wrapper does not execute the wrapped recipe body (hence no
network fetch and no build step): the result is independent of the recipe,
the host is unchanged, the instrumentation flag records that the recipe
did not run, and the invocation is the resolved command with the given
arguments — indistinguishable from the just-installed case. -/
theorem installer_skips_when_installed (name : String) (r1 r2 : Host → Host)
    (pv : String) (args : List String) (io : Bool) (h : Host) (cmd : String)
    (hres : which h pv name = some cmd) :
    installer name r1 pv args io h = installer name r2 pv args io h ∧
    (io = false →
      installer name r1 pv args io h = .ok (h, some (cmd, args), false)) ∧
    (io = true → args = [] →
      installer name r1 pv args io h = .ok (h, none, false)) := by
  unfold installer
  rw [hres]
  refine ⟨rfl, ?_, ?_⟩
  · intro hio
    simp [hio]
  · intro hio ha
    simp [hio, ha]

/-- Witness for C3 at a concrete input: /bin/sh is present on the host, so
the installer invokes it directly, does not run the recipe, and leaves the
host unchanged. -/
theorem installer_skips_witness :
    which shHost "/bin" "sh" = some "/bin/sh" ∧
    installer "sh" id "/bin" ["-c", "ls"] false shHost =
      .ok (shHost, some ("/bin/sh", ["-c", "ls"]), false) :=
  ⟨by decide,
   (installer_skips_when_installed "sh" id id "/bin" ["-c", "ls"] false
      shHost "/bin/sh" (by decide)).2.1 rfl⟩

/-- C4: when the tool is absent, the installer wrapper runs the recipe and
re-resolves the tool on PATH afterward; if the tool is still unresolvable
the call ends in the assertion-failure error (the model of a Python
assert, which terminates the process) — it never continues to an
invocation and never returns a success value. -/
theorem installer_fatal_when_still_absent (name : String)
    (recipe : Host → Host) (pv : String) (args : List String) (io : Bool)
    (h : Host) (ha : which h pv name = none)
    (hb : which (recipe h) pv name = none) :
    installer name recipe pv args io h = .error (.assertionFailed name) := by
  unfold installer
  rw [ha]
  simp only []
  rw [hb]

/-- Witness for C4 at a concrete input: on a host with no executables and
an identity recipe, ensuring make fails with the assertion error. -/
theorem installer_fatal_witness :
    which emptyHost "/bin" "make" = none ∧
    installer "make" id "/bin" [] true emptyHost =
      .error (.assertionFailed "make") :=
  ⟨by decide,
   installer_fatal_when_still_absent "make" id "/bin" [] true emptyHost
     (by decide) (by decide)⟩

/-- C5: after main composes PATH as the colon join of the target utils/bin
directory, the scratch bin directory and the original PATH, resolving a
plain name that is executable under utils/bin or under the scratch bin
returns the entry under one of those two directories — utils/bin first —
and never an entry from a later directory of the original PATH. -/
theorem composed_path_precedence (h : Host) (target tempdir orig name : String)
    (hu : noColon (utilsBinDir target) = true)
    (ht : noColon (tempBinDir tempdir) = true)
    (hsep : containsSep name = false)
    (hm : is_exe h (pathJoin (stripQuotes (utilsBinDir target)) name) = true ∨
          is_exe h (pathJoin (stripQuotes (tempBinDir tempdir)) name) = true) :
    which h (composePATH (utilsBinDir target) (tempBinDir tempdir) orig) name =
      if is_exe h (pathJoin (stripQuotes (utilsBinDir target)) name) then
        some (pathJoin (stripQuotes (utilsBinDir target)) name)
      else some (pathJoin (stripQuotes (tempBinDir tempdir)) name) := by
  unfold which
  rw [hsep]
  simp only [Bool.false_eq_true, if_false]
  rw [splitPATH_composePATH _ _ _ hu ht]
  by_cases h1 : is_exe h (pathJoin (stripQuotes (utilsBinDir target)) name) = true
  · simp [searchPATH, h1]
  · have h1f : is_exe h (pathJoin (stripQuotes (utilsBinDir target)) name)
        = false := by simpa using h1
    rcases hm with hm1 | hm2
    · exact absurd hm1 h1
    · simp [searchPATH, h1f, hm2]

/-- Witness for C5 at a concrete input: fakeroot exists both under the
composed utils/bin directory and under /usr/bin from the original PATH;
resolution returns the utils/bin entry. -/
theorem composed_path_precedence_witness :
    noColon (utilsBinDir "/tmp/x") = true ∧
    noColon (tempBinDir "/s") = true ∧
    containsSep "fakeroot" = false ∧
    is_exe dualHost (pathJoin (stripQuotes (utilsBinDir "/tmp/x")) "fakeroot")
      = true ∧
    is_exe dualHost "/usr/bin/fakeroot" = true ∧
    which dualHost (composePATH (utilsBinDir "/tmp/x") (tempBinDir "/s")
        "/usr/bin") "fakeroot" = some "/tmp/x/utils/bin/fakeroot" := by
  refine ⟨by decide, by decide, by decide, by decide, by decide, ?_⟩
  rw [composed_path_precedence dualHost "/tmp/x" "/s" "/usr/bin" "fakeroot"
    (by decide) (by decide) (by decide) (Or.inl (by decide))]
  decide

/-- C6 counterexample: the script body written on a fresh target does not
equal exactly the two claimed lines (with or without a trailing newline):
the rendered template begins with an extra newline character, so the file
starts with an empty line before the PATH line. -/
theorem chroot_sh_counterexample :
    CHROOT_SH "/tmp/x" "/tmp/x/utils/bin/fakeroot"
        "/tmp/x/utils/bin/fakechroot" ≠
      "PATH=/tmp/x/utils/bin:$PATH\n/tmp/x/utils/bin/fakeroot /tmp/x/utils/bin/fakechroot chroot /tmp/x/root $@\n" ∧
    CHROOT_SH "/tmp/x" "/tmp/x/utils/bin/fakeroot"
        "/tmp/x/utils/bin/fakechroot" ≠
      "PATH=/tmp/x/utils/bin:$PATH\n/tmp/x/utils/bin/fakeroot /tmp/x/utils/bin/fakechroot chroot /tmp/x/root $@" :=
  ⟨by decide, by decide⟩

/-- C6 amended: the script body written on a fresh target is a leading
newline followed by the two claimed lines, each terminated by a newline;
and the permission bits passed to chmod are exactly owner read, write and
execute (0700), with no group or other bits. -/
theorem chroot_sh_content_and_mode :
    CHROOT_SH "/tmp/x" "/tmp/x/utils/bin/fakeroot"
        "/tmp/x/utils/bin/fakechroot" =
      "\nPATH=/tmp/x/utils/bin:$PATH\n/tmp/x/utils/bin/fakeroot /tmp/x/utils/bin/fakechroot chroot /tmp/x/root $@\n" ∧
    chroot_sh_mode = 0o700 ∧
    chroot_sh_mode &&& 0o077 = 0 :=
  ⟨by decide, by decide, by decide⟩

/-- C7 counterexample: on a PATH whose single directory is wrapped in two
layers of quotes, the resolver of the source strips all of them and finds
the executable, while the resolver described by the claim (stripping one
layer) joins a still-quoted directory and finds nothing. -/
theorem which_strip_counterexample :
    which quoteHost "\"\"d\"\"" "p" = some "d/p" ∧
    whichSpecOneLayer quoteHost "\"\"d\"\"" "p" = none :=
  ⟨by decide, by decide⟩

/-- C7 amended: the resolver of the source coincides, on every host, PATH
value and input, with the resolver described by the claim once the quote
stripping is read as removing ALL surrounding quote characters: an input
containing a separator is treated as a literal path with no PATH fallback,
and otherwise the PATH directories are searched in order for the first
executable hit, absence being a normal negative result. -/
theorem which_matches_spec (h : Host) (pv program : String) :
    which h pv program = whichSpecStripAll h pv program := by
  unfold which whichSpecStripAll
  by_cases hc : containsSep program = true
  · simp [hc]
  · have hcf : containsSep program = false := by simpa using hc
    simp [hcf, searchPATH_eq_findSome]

/-- C8 counterexample: with a just-built debootstrap (resolved path under
the scratch directory) and a failing bootstrap invocation, the exception
propagates past the delete of DEBOOTSTRAP_DIR, so the variable is still
set when the bootstrap fragment is abandoned — contradicting the claim
that it is unset afterward regardless of success or failure. -/
theorem debootstrap_dir_counterexample :
    (runBootstrap "/s" "/tmp/x" "/s/bin/debootstrap" none "/u/fakeroot"
        "/u/fakechroot" false).failed = true ∧
    (runBootstrap "/s" "/tmp/x" "/s/bin/debootstrap" none "/u/fakeroot"
        "/u/fakechroot" false).env_at_end = some "/s/share/debootstrap" :=
  ⟨by decide, by decide⟩

/-- C8 amended: DEBOOTSTRAP_DIR is set during the bootstrap invocation
exactly when the resolved debootstrap path starts with the scratch
directory, in which case it points at the scratch share/debootstrap
directory; when debootstrap was preexisting it is never set; after a
successful invocation it is unset again, but after a failing invocation
the exception propagates before the delete, so the variable is still set
when the fragment terminates. -/
theorem debootstrap_dir_lifecycle (tempdir target db : String)
    (v : Option String) (fr fc : String) (ok : Bool) :
    (runBootstrap tempdir target db v fr fc ok).env_during =
      (if strStartsWith db tempdir then
        some (pathJoin (pathJoin tempdir "share") "debootstrap")
      else none) ∧
    (runBootstrap tempdir target db v fr fc ok).failed = !ok ∧
    (runBootstrap tempdir target db v fr fc ok).env_at_end =
      (if (runBootstrap tempdir target db v fr fc ok).failed then
        (runBootstrap tempdir target db v fr fc ok).env_during
      else none) := by
  unfold runBootstrap
  cases ok <;> by_cases hs : strStartsWith db tempdir = true <;> simp [hs]

/-- C9: chroot.sh is opened in append mode, never truncated: for any
existing content the content after one run is the existing content
followed by the rendered script body, and a second run against the same
target appends a second copy of the body, accumulating duplicates. -/
theorem chroot_script_append_accumulates (existing target fr fc : String) :
    emitChrootScript existing target fr fc =
      existing ++ CHROOT_SH target fr fc ∧
    emitChrootScript (emitChrootScript existing target fr fc) target fr fc =
      existing ++ CHROOT_SH target fr fc ++ CHROOT_SH target fr fc :=
  ⟨rfl, rfl⟩

/-- C10: if the scratch directory already contains a share directory (for
example a caller-supplied tempdir reused from a prior run that built
debootstrap), the debootstrap recipe fails with the FileExistsError of its
non-tolerant os.mkdir call on share — while the directory preparation of
main tolerates existing directories: running it a second time changes
nothing and raises nothing. -/
theorem debootstrap_recipe_share_collision (tempdir target : String)
    (fs : FS)
    (hs : fs.dirs.contains (pathJoin tempdir "share") = true) :
    debootstrap_recipe tempdir fs =
      .error (.fileExists (pathJoin tempdir "share")) ∧
    prepareDirectories target tempdir (prepareDirectories target tempdir fs)
      = prepareDirectories target tempdir fs := by
  constructor
  · have h1 : (extractDebootstrapArchive tempdir fs).dirs.contains
        (pathJoin tempdir "share") = true := by
      unfold extractDebootstrapArchive
      exact contains_cons_of _ _ _ (contains_cons_of _ _ _ hs)
    have hm : mkdir (extractDebootstrapArchive tempdir fs)
        (pathJoin tempdir "share") =
        .error (.fileExists (pathJoin tempdir "share")) := by
      unfold mkdir
      rw [h1]
      simp
    unfold debootstrap_recipe
    simp only [hm]
    rfl
  · have htb : (makedirsTolerant (makedirsTolerant fs (tempBinDir tempdir))
        (pathJoin target "utils")).dirs.contains (tempBinDir tempdir)
        = true :=
      contains_makedirsTolerant_mono _ _ _
        (contains_makedirsTolerant_self _ _)
    have hut : (makedirsTolerant (makedirsTolerant fs (tempBinDir tempdir))
        (pathJoin target "utils")).dirs.contains (pathJoin target "utils")
        = true :=
      contains_makedirsTolerant_self _ _
    unfold prepareDirectories
    rw [makedirsTolerant_of_contains _ _ htb,
      makedirsTolerant_of_contains _ _ hut]

/-- Witness for C10 at a concrete input: a scratch directory /s that
already holds /s/share makes the debootstrap recipe fail with the
already-exists error. -/
theorem debootstrap_recipe_share_witness :
    (FS.mk ["/s/share"] []).dirs.contains (pathJoin "/s" "share") = true ∧
    debootstrap_recipe "/s" (FS.mk ["/s/share"] []) =
      .error (.fileExists (pathJoin "/s" "share")) :=
  ⟨by decide,
   (debootstrap_recipe_share_collision "/s" "/tmp/x" (FS.mk ["/s/share"] [])
     (by decide)).1⟩

end DebianAnywhere
